import Mathlib

/-!
Verification development for the pandas interfaces engine
(suzieq/engines/pandas/interfaces.py).

DataFrames are modelled as lists of rows; every pandas column assignment
becomes an explicit field computation translated from the source lambdas.
The column named namespace in the source is called ns here because
namespace is a Lean keyword.
-/

/-- A row of the assertion engine's working join (combined_df in
_assert_interfaces): the local interface record together with the
Peer-suffixed columns pulled in by the self-join, after the fillna
step that installs the peer-absent sentinels. indexPeer is the peer
row's index (>= 0) or the sentinels -1 / -2. -/
structure CombinedRow where
  ns : String
  hostname : String
  ifname : String
  master : String
  adminState : String
  state : String
  reason : String
  type : String
  typePeer : String
  mtu : Int
  mtuPeer : Int
  speed : Int
  speedPeer : Int
  portmode : String
  portmodePeer : String
  ipAddressList : List String
  ipAddressListPeer : List String
  vlan : Int
  vlanPeer : Int
  vlanList : List Int
  vlanListPeer : List Int
  indexPeer : Int
  peerHostname : String
  peerIfname : String
  deriving DecidableEq

/-- combined_df['skipIfCheck']: (x.master == 'bridge') or
(x.type in ['bond_slave', 'vlan']). -/
def skipIfCheck (x : CombinedRow) : Bool :=
  x.master = "bridge" ∨ x.type ∈ (["bond_slave", "vlan"] : List String)

/-- The first assertReason assignment: [] if adminState == 'down' or
(adminState == 'up' and state == 'up') else [x.reason or "Interface Down"].
Python's `x.reason or "Interface Down"` yields x.reason when it is a
non-empty string. -/
def opStateRule (x : CombinedRow) : List String :=
  if x.adminState = "down" ∨ (x.adminState = "up" ∧ x.state = "up") then []
  else [if x.reason ≠ "" then x.reason else "Interface Down"]

/-- The indexPeer override: keep indexPeer when (namespace, hostname) of the
peer... is among the known hosts, else -2.  In the source the known-host set
is the set of (namespace, hostname) group keys of combined_df. -/
def reclassifyPeer (knownHosts : List (String × String)) (x : CombinedRow) :
    CombinedRow :=
  if (x.ns, x.hostname) ∈ knownHosts then x else { x with indexPeer := -2 }

/-- ['No Peer Found'] if x.indexPeer == -1 and not x.skipIfCheck else []. -/
def noPeerFoundRule (x : CombinedRow) : List String :=
  if x.indexPeer = -1 ∧ ¬ skipIfCheck x then ["No Peer Found"] else []

/-- ['Unpolled Peer'] if x.indexPeer == -2 and not x.skipIfCheck else []. -/
def unpolledPeerRule (x : CombinedRow) : List String :=
  if x.indexPeer = -2 ∧ ¬ skipIfCheck x then ["Unpolled Peer"] else []

/-- _check_field: exempt when skipIfCheck or indexPeer < 0; otherwise the
given reason unless the two field values are equal. -/
def check_field (x : CombinedRow) (fld1 fld2 : Int) (reason : List String) :
    List String :=
  if skipIfCheck x ∨ x.indexPeer < 0 then []
  else if fld1 = fld2 then [] else reason

/-- a.b.c.d dotted quad to a number (model of the numeric value
ipaddress assigns to a well-formed IPv4 address). -/
def ipv4ToNat (s : String) : Nat :=
  match (s.splitOn ".").map String.toNat? with
  | [some a, some b, some c, some d] => ((a * 256 + b) * 256 + c) * 256 + d
  | _ => 0

/-- Model of ip_network(s, strict=False) on a well-formed "addr/plen"
string: the (masked network address, prefix length) pair; equality of the
pairs is equality of the networks. -/
def ipNetworkOf (s : String) : Nat × Nat :=
  let parts := s.splitOn "/"
  let addr := ipv4ToNat (parts.headD "")
  let plen := ((parts.getD 1 "32").toNat?).getD 32
  (addr / 2 ^ (32 - plen) * 2 ^ (32 - plen), plen)

/-- _check_ipaddr: exempt when skipIfCheck or indexPeer < 0; the reason when
the two lists have different lengths; for non-empty lists of equal length,
pass when the first address has prefix length "32" or the first addresses
denote the same network; empty lists pass. -/
def check_ipaddr (x : CombinedRow) (l1 l2 : List String) (reason : List String) :
    List String :=
  if skipIfCheck x ∨ x.indexPeer < 0 then []
  else if l1.length ≠ l2.length then reason
  else if l1.length ≠ 0 then
    if ((l1.headD "").splitOn "/").getD 1 "" = "32" ∨
        ipNetworkOf (l1.headD "") = ipNetworkOf (l2.headD "") then []
    else reason
  else []

/-- Type compatibility: pass when no peer, equal types, local vlan with peer
subinterface, or both types starting with "ether". -/
def typeRule (x : CombinedRow) : List String :=
  if x.indexPeer < 0 ∨
      (x.type = x.typePeer ∨
        (x.type = "vlan" ∧ x.typePeer = "subinterface") ∨
        (x.type.startsWith "ether" ∧ x.typePeer.startsWith "ether")) then []
  else ["type mismatch"]

/-- Portmode compatibility: pass when no peer or equal portmodes. -/
def portmodeRule (x : CombinedRow) : List String :=
  if x.indexPeer < 0 ∨ x.portmode = x.portmodePeer then []
  else ["portMode Mismatch"]

/-- pvid check: pass when (portmode in ['access','trunk'] and (no peer or
equal pvids)) or portmode in ['routed','unknown']. -/
def pvidRule (x : CombinedRow) : List String :=
  if (x.portmode ∈ (["access", "trunk"] : List String) ∧
        (x.indexPeer < 0 ∨ x.vlan = x.vlanPeer)) ∨
      x.portmode ∈ (["routed", "unknown"] : List String) then []
  else ["pvid Mismatch"]

/-- VLAN-set check, exactly as in the source: [] if ((indexPeer > 0 and the
(namespace, hostname, master) triple is not an MLAG peer-link and the two
vlanList sets are equal) or (indexPeer < 0 or the triple is an MLAG
peer-link)); else ['VLAN set mismatch'].  Note the source tests
indexPeer > 0, not indexPeer >= 0. -/
def vlanSetRule (mlagPeerlinks : List (String × String × String))
    (x : CombinedRow) : List String :=
  if (x.indexPeer > 0 ∧ (x.ns, x.hostname, x.master) ∉ mlagPeerlinks ∧
        x.vlanList.toFinset = x.vlanListPeer.toFinset) ∨
      (x.indexPeer < 0 ∨ (x.ns, x.hostname, x.master) ∈ mlagPeerlinks) then []
  else ["VLAN set mismatch"]

/-- The reasons appended after the operational-state rule, in source order:
the indexPeer override is applied first, then the per-rule lambdas append
their contributions. -/
def restRules (mlagPeerlinks : List (String × String × String))
    (knownHosts : List (String × String)) (x : CombinedRow) : List String :=
  let x' := reclassifyPeer knownHosts x
  noPeerFoundRule x' ++ unpolledPeerRule x' ++
    check_field x' x'.mtu x'.mtuPeer ["MTU mismatch"] ++
    check_field x' x'.speed x'.speedPeer ["Speed mismatch"] ++
    typeRule x' ++ portmodeRule x' ++
    check_ipaddr x' x'.ipAddressList x'.ipAddressListPeer
      ["IP address mismatch"] ++
    pvidRule x' ++ vlanSetRule mlagPeerlinks x'

/-- The full assertReason list accumulated for one combined_df row, in the
fixed source order of the rules. -/
def assertReasons (mlagPeerlinks : List (String × String × String))
    (knownHosts : List (String × String)) (x : CombinedRow) : List String :=
  opStateRule x ++ restRules mlagPeerlinks knownHosts x

/-- The result column assignment: with ignore_missing_peer,
'fail' if (len(assertReason) and assertReason[0] != 'No Peer Found') else
'pass'; without it, 'fail' if len(assertReason) else 'pass'. -/
def rowResult (ignoreMissingPeer : Bool) (assertReason : List String) :
    String :=
  if ignoreMissingPeer then
    match assertReason with
    | [] => "pass"
    | r0 :: _ => if r0 ≠ "No Peer Found" then "fail" else "pass"
  else
    match assertReason with
    | [] => "pass"
    | _ :: _ => "fail"

/-- The rendered assertReason cell: the reason list itself when non-empty,
the placeholder string '-' when empty (the final apply on assertReason). -/
inductive ReasonCell where
  | reasons (rs : List String)
  | dash
  deriving DecidableEq

/-- assertReason.apply(lambda x: x if len(x) else '-'). -/
def renderReason (rs : List String) : ReasonCell :=
  if rs.length ≠ 0 then ReasonCell.reasons rs else ReasonCell.dash

/-- An interface row as seen by the head of _assert_interfaces (only the
fields the short-circuit paths inspect matter). -/
structure IfRow where
  ns : String
  hostname : String
  ifname : String
  deriving DecidableEq

/-- An LLDP row; rows with peerIfname == "-" are discarded by the query
before the emptiness test. -/
structure LldpRow where
  ns : String
  hostname : String
  ifname : String
  peerHostname : String
  peerIfname : String
  deriving DecidableEq

/-- The no-data short-circuits at the head of _assert_interfaces.  An output
row pairs the interface row with the optionally assigned
(result, assertReason) columns; none means the columns were not assigned.
The function returns none when neither short-circuit fires and the main
pipeline runs. -/
def assertShortCircuitPath (ifRows : List IfRow) (lldpRows : List LldpRow)
    (result : String) : Option (List (IfRow × Option (String × String))) :=
  if ifRows.isEmpty then
    if result ≠ "pass" then
      some (ifRows.map fun r => (r, some ("fail", "No data")))
    else
      some (ifRows.map fun r => (r, none))
  else
    let lldpUsable := lldpRows.filter fun l => l.peerIfname ≠ "-"
    if lldpUsable.isEmpty then
      if result ≠ "pass" then
        some (ifRows.map fun r => (r, some ("fail", "No LLDP peering info")))
      else
        some (ifRows.map fun r => (r, none))
    else
      none

/-- One access/trunk mapping extracted from a device's parsed configuration
(one element of pm_list in _add_portmode). -/
structure PmEntry where
  ns : String
  hostname : String
  ifname : String
  portmode : String
  vlan : Int
  deriving DecidableEq

/-- An interface row entering _add_portmode (no portmode column yet). -/
structure IfaceRow where
  ns : String
  hostname : String
  ifname : String
  adminState : String
  type : String
  ipAddressList : List String
  ip6AddressList : List String
  vlan : Int
  deriving DecidableEq

/-- An interface row after _add_portmode: the same columns plus portmode. -/
structure PortmodeRow where
  ns : String
  hostname : String
  ifname : String
  adminState : String
  type : String
  ipAddressList : List String
  ip6AddressList : List String
  vlan : Int
  portmode : String
  deriving DecidableEq

/-- _add_portmode.  pmList is the list of config-derived access/trunk
mappings (built by the external config parser and port-role extractors,
which are collaborators outside this engine).  When pmList is empty the
address-presence fallback runs and the function returns at once; otherwise
the mappings are left-merged on (namespace, hostname, ifname) with
portmode filled 'routed' for unmatched rows, then the bridge, vlan_y,
admin-down and vxlan adjustments run in source order.  The df vlan column
is an integer here, so the fillna on vlan is the identity. -/
def add_portmode (pmList : List PmEntry) (df : List IfaceRow) :
    List PortmodeRow :=
  if pmList.isEmpty then
    df.map fun r =>
      let pm0 := if r.ipAddressList.length = 0 then "unknown" else "routed"
      let pm1 := if r.ip6AddressList.length ≠ 0 then "routed" else pm0
      { ns := r.ns, hostname := r.hostname, ifname := r.ifname,
        adminState := r.adminState, type := r.type,
        ipAddressList := r.ipAddressList, ip6AddressList := r.ip6AddressList,
        vlan := r.vlan, portmode := pm1 }
  else
    df.map fun r =>
      let m := pmList.find? fun e =>
        e.ns = r.ns ∧ e.hostname = r.hostname ∧ e.ifname = r.ifname
      let pm0 := match m with
        | some e => e.portmode
        | none => "routed"
      let vlan1 := match m with
        | some e => e.vlan
        | none => r.vlan
      let pm1 := if r.ifname = "bridge" then "" else pm0
      let pm2 := if r.adminState ≠ "up" then "" else pm1
      let pm3 := if r.type = "vxlan" ∧ pm2 = "routed" then "trunk" else pm2
      { ns := r.ns, hostname := r.hostname, ifname := r.ifname,
        adminState := r.adminState, type := r.type,
        ipAddressList := r.ipAddressList, ip6AddressList := r.ip6AddressList,
        vlan := vlan1, portmode := pm3 }

/-- A row of the vlan table: a VLAN id and its member interface list. -/
structure VlanRow where
  ns : String
  hostname : String
  vlan : Int
  interfaces : List String
  deriving DecidableEq

/-- The VLAN-membership inversion of _add_vlanlist for one interface key:
explode the member lists, collect the distinct VLAN ids of the matching
(namespace, hostname, interface) group, sorted ascending. -/
def vlanIfList (vlanRows : List VlanRow) (ns hostname ifname : String) :
    List Int :=
  (((vlanRows.filter fun v =>
      v.ns = ns ∧ v.hostname = hostname ∧ ifname ∈ v.interfaces).map
        VlanRow.vlan).toFinset).sort (· ≤ ·)

/-- _add_vlanlist.  When the vlan table is empty the input is returned
unchanged, so the vlanList column stays absent (modelled as none).
Otherwise each interface gets the inverted membership list (empty when no
group matches, the filled-NaN case of the left join), and access/routed
portmodes get their list cleared. -/
def add_vlanlist (vlanRows : List VlanRow) (df : List PortmodeRow) :
    List (PortmodeRow × Option (List Int)) :=
  if vlanRows.isEmpty then
    df.map fun r => (r, none)
  else
    df.map fun r =>
      let vl := vlanIfList vlanRows r.ns r.hostname r.ifname
      let vl := if r.portmode ∈ (["access", "routed"] : List String)
        then [] else vl
      (r, some vl)

/-- A row as seen by the vlan-filter block of get: identity, pvid and the
derived vlanList. -/
structure QRow where
  ns : String
  hostname : String
  ifname : String
  vlan : Int
  vlanList : List Int
  deriving DecidableEq

/-- The exploded query (vlan == vlans or vlanList == vlans) holds for a row
iff its pvid is among the requested vlans or some member of its vlanList
is. -/
abbrev vlanMatches (vlans : List Int) (r : QRow) : Prop :=
  r.vlan ∈ vlans ∨ ∃ v ∈ r.vlanList, v ∈ vlans

/-- The vlan-filter block of get: compute the matching rows (df_exp), then
keep the rows of df whose namespace, hostname and ifname each appear among
the matching rows' respective column values (three independent isin
tests). -/
def vlanFilter (vlans : List Int) (df : List QRow) : List QRow :=
  let dfExp := df.filter fun r => vlanMatches vlans r
  df.filter fun r =>
    r.ns ∈ dfExp.map QRow.ns ∧
    r.hostname ∈ dfExp.map QRow.hostname ∧
    r.ifname ∈ dfExp.map QRow.ifname

/-- A matchval entry handed to assert_mtu_value: either int-coercible with
the given value, or not int-coercible (int(x) raises). -/
inductive MatchVal where
  | num (n : Int)
  | bad (s : String)
  deriving DecidableEq

/-- int(x) for a matchval entry. -/
def int_of : MatchVal → Option Int
  | MatchVal.num n => some n
  | MatchVal.bad _ => none

/-- A row of the projected interface table consumed by _assert_mtu_value. -/
structure MtuRow where
  ns : String
  hostname : String
  ifname : String
  state : String
  mtu : Int
  deriving DecidableEq

/-- The list comprehension [int(x) for x in matchval]: fail-fast, the whole
coercion aborts at the first entry int() rejects. -/
def coerce_matchvals : List MatchVal → Option (List Int)
  | [] => some []
  | x :: xs =>
    match int_of x with
    | none => none
    | some n =>
      match coerce_matchvals xs with
      | none => none
      | some ns => some (n :: ns)

/-- _assert_mtu_value: coerce every matchval entry to an integer (the list
comprehension [int(x) for x in matchval] raises before any data is fetched
when an entry is not coercible), drop interfaces named "lo", mark each
remaining row pass/fail by mtu membership, then apply the result filter. -/
def assert_mtu_value (matchval : List MatchVal) (result : String)
    (rows : List MtuRow) : Except String (List (MtuRow × String)) :=
  match coerce_matchvals matchval with
  | none => Except.error "matchval entries must be integers"
  | some mv =>
    let base := (rows.filter fun r => r.ifname ≠ "lo").map fun r =>
      (r, if r.mtu ∈ mv then "pass" else "fail")
    if result = "fail" then Except.ok (base.filter fun p => p.2 = "fail")
    else if result = "pass" then Except.ok (base.filter fun p => p.2 = "pass")
    else Except.ok base

/-- Sample rows used by the concrete evaluations below.  baseRow is a fully
healthy combined row: up/up, matching peer fields, resolved peer. -/
def baseRow : CombinedRow :=
  { ns := "ns1", hostname := "h1", ifname := "eth1", master := "",
    adminState := "up", state := "up", reason := "", type := "ethernet",
    typePeer := "ethernet", mtu := 1500, mtuPeer := 1500, speed := 1000,
    speedPeer := 1000, portmode := "routed", portmodePeer := "routed",
    ipAddressList := [], ipAddressListPeer := [], vlan := 0, vlanPeer := 0,
    vlanList := [], vlanListPeer := [], indexPeer := 1,
    peerHostname := "h2", peerIfname := "eth1" }

/-- A combined row whose peer resolved to dataframe index 0, with equal
local and peer VLAN sets. -/
def zeroPeerRow : CombinedRow :=
  { baseRow with indexPeer := 0, vlanList := [10], vlanListPeer := [10] }

/-- A combined row that is admin-up but operationally down, with a
collector-reported down reason. -/
def carrierRow : CombinedRow :=
  { baseRow with state := "down", reason := "Carrier down" }

/-- An administratively down combined row. -/
def adminDownRow : CombinedRow :=
  { baseRow with adminState := "down", state := "down" }

/-- A sample interface row for the short-circuit paths. -/
def sampleIfRow : IfRow := { ns := "ns1", hostname := "h1", ifname := "eth1" }

/-- A config-derived access mapping for interface eth0. -/
def pmEntryA : PmEntry :=
  { ns := "ns1", hostname := "h1", ifname := "eth0", portmode := "access",
    vlan := 10 }

/-- An up interface with no addresses and no config-derived mapping. -/
def bareIface : IfaceRow :=
  { ns := "ns1", hostname := "h1", ifname := "eth1", adminState := "up",
    type := "ethernet", ipAddressList := [], ip6AddressList := [], vlan := 0 }

/-- bareIface as emitted by the no-mapping fallback path. -/
def bareOutUnknown : PortmodeRow :=
  { ns := "ns1", hostname := "h1", ifname := "eth1", adminState := "up",
    type := "ethernet", ipAddressList := [], ip6AddressList := [], vlan := 0,
    portmode := "unknown" }

/-- bareIface as emitted by the merge path when it has no mapping. -/
def bareOutRouted : PortmodeRow :=
  { ns := "ns1", hostname := "h1", ifname := "eth1", adminState := "up",
    type := "ethernet", ipAddressList := [], ip6AddressList := [], vlan := 0,
    portmode := "routed" }

/-- An administratively down interface with one IPv4 address. -/
def downIface : IfaceRow :=
  { ns := "ns1", hostname := "h1", ifname := "eth2", adminState := "down",
    type := "ethernet", ipAddressList := ["10.1.1.1/24"],
    ip6AddressList := [], vlan := 0 }

/-- downIface as emitted by the merge path. -/
def downOut : PortmodeRow :=
  { ns := "ns1", hostname := "h1", ifname := "eth2", adminState := "down",
    type := "ethernet", ipAddressList := ["10.1.1.1/24"],
    ip6AddressList := [], vlan := 0, portmode := "" }

/-- A trunk port entering _add_vlanlist. -/
def trunkPm : PortmodeRow :=
  { ns := "ns1", hostname := "h1", ifname := "swp1", adminState := "up",
    type := "ethernet", ipAddressList := [], ip6AddressList := [], vlan := 1,
    portmode := "trunk" }

/-- An access port entering _add_vlanlist; it is a member of a VLAN, but
its list must be cleared because of its portmode. -/
def accessPm : PortmodeRow :=
  { ns := "ns1", hostname := "h1", ifname := "swp2", adminState := "up",
    type := "ethernet", ipAddressList := [], ip6AddressList := [], vlan := 10,
    portmode := "access" }

/-- A trunk port with no VLAN membership at all. -/
def trunkPm2 : PortmodeRow :=
  { ns := "ns1", hostname := "h1", ifname := "swp3", adminState := "up",
    type := "ethernet", ipAddressList := [], ip6AddressList := [], vlan := 1,
    portmode := "trunk" }

/-- A vlan table row: VLAN 20 with members swp1 and swp2. -/
def vr0 : VlanRow :=
  { ns := "ns1", hostname := "h1", vlan := 20, interfaces := ["swp1", "swp2"] }

/-- Rows for the vlan-filter block: qA and qB match vlans 10/20; qC does
not, but shares qA's namespace and hostname and qB's ifname. -/
def qA : QRow :=
  { ns := "ns1", hostname := "h1", ifname := "eth1", vlan := 10,
    vlanList := [] }

/-- See qA. -/
def qB : QRow :=
  { ns := "ns1", hostname := "h2", ifname := "eth2", vlan := 20,
    vlanList := [] }

/-- See qA. -/
def qC : QRow :=
  { ns := "ns1", hostname := "h1", ifname := "eth2", vlan := 30,
    vlanList := [] }

/-- MTU table rows for assert_mtu_value. -/
def mtu1500 : MtuRow :=
  { ns := "ns1", hostname := "h1", ifname := "eth1", state := "up",
    mtu := 1500 }

/-- See mtu1500. -/
def mtu1400 : MtuRow :=
  { ns := "ns1", hostname := "h1", ifname := "eth2", state := "up",
    mtu := 1400 }

/-- A loopback row, excluded by the lo filter. -/
def mtuLo : MtuRow :=
  { ns := "ns1", hostname := "h1", ifname := "lo", state := "up",
    mtu := 65536 }

/-- C1: with ignore_missing_peer set, the per-row verdict is 'fail' exactly
when the accumulated reason list is non-empty and its first element is not
exactly 'No Peer Found'. -/
theorem c1_ignore_missing_peer_verdict (rs : List String) :
    rowResult true rs = "fail" ↔
      rs ≠ [] ∧ rs.head? ≠ some "No Peer Found" := by
  cases rs with
  | nil => simp [rowResult]
  | cons r rest =>
    by_cases h : r = "No Peer Found"
    · simp [rowResult, h]
    · simp [rowResult, h]

/-- C1 witness: a row whose first reason is 'No Peer Found' passes even
though it later accumulated 'MTU mismatch'; a row whose first reason is
anything else fails. -/
theorem c1_ignore_missing_peer_verdict_witness :
    rowResult true ["No Peer Found", "MTU mismatch"] = "pass" ∧
    rowResult true ["MTU mismatch"] = "fail" :=
  ⟨rfl, (c1_ignore_missing_peer_verdict ["MTU mismatch"]).mpr (by decide)⟩

/-- C2: the code contradicts the claim at a peer resolved to dataframe
index 0.  zeroPeerRow has a resolved peer (indexPeer = 0, a valid row
identity per the sentinel convention), is not an MLAG peer-link, and its
local and peer VLAN sets are equal, yet the VLAN-set rule appends
'VLAN set mismatch' because the source tests indexPeer > 0 instead of
indexPeer >= 0; the full rule chain fails the row on this reason alone. -/
theorem c2_vlan_set_rule_zero_indexPeer :
    zeroPeerRow.indexPeer = 0 ∧
    zeroPeerRow.vlanList.toFinset = zeroPeerRow.vlanListPeer.toFinset ∧
    (zeroPeerRow.ns, zeroPeerRow.hostname, zeroPeerRow.master) ∉
      ([] : List (String × String × String)) ∧
    vlanSetRule [] zeroPeerRow = ["VLAN set mismatch"] ∧
    assertReasons [] [("ns1", "h1")] zeroPeerRow = ["VLAN set mismatch"] := by
  decide

/-- C3 counterexample: with ignore_missing_peer set, a row whose only
reason is 'No Peer Found' gets result 'pass' while its rendered
assertReason is the non-empty reason list, not the placeholder '-'. -/
theorem c3_dash_iff_pass_counterexample :
    rowResult true ["No Peer Found"] = "pass" ∧
    renderReason ["No Peer Found"] ≠ ReasonCell.dash := by decide

/-- C3 amended: the rendered assertReason is '-' iff the row passes when
ignore_missing_peer is not set; when it is set, '-' still implies 'pass'
but a passing row may render a non-'-' reason list. -/
theorem c3_dash_iff_pass_amended (rs : List String) :
    (renderReason rs = ReasonCell.dash ↔ rowResult false rs = "pass") ∧
    (renderReason rs = ReasonCell.dash → rowResult true rs = "pass") := by
  cases rs with
  | nil => simp [renderReason, rowResult]
  | cons r rest => simp [renderReason, rowResult]

/-- C3 witness: the empty reason list renders as '-' and passes under
ignore_missing_peer. -/
theorem c3_dash_iff_pass_witness :
    rowResult true ([] : List String) = "pass" :=
  (c3_dash_iff_pass_amended []).2 rfl

/-- C4 counterexample: an admin-up, operationally-down row whose interface
table carries a non-empty reason field gets that reason appended, not the
literal 'Interface Down'. -/
theorem c4_opstate_reason_counterexample :
    carrierRow.adminState = "up" ∧ carrierRow.state = "down" ∧
    opStateRule carrierRow = ["Carrier down"] ∧
    opStateRule carrierRow ≠ ["Interface Down"] := by decide

/-- C4 amended: when neither adminState = down nor (adminState = up and
state = up) holds, the operational-state rule prepends exactly one reason
to the row's chain: the row's own reason field when non-empty, else
'Interface Down'; when adminState = down, or adminState = up with
state = up, the rule contributes nothing and the chain is exactly the
remaining rules' output. -/
theorem c4_opstate_rule_amended
    (mlagPeerlinks : List (String × String × String))
    (knownHosts : List (String × String)) (x : CombinedRow) :
    (x.adminState = "down" ∨ (x.adminState = "up" ∧ x.state = "up") →
      assertReasons mlagPeerlinks knownHosts x =
        restRules mlagPeerlinks knownHosts x) ∧
    (¬ (x.adminState = "down" ∨ (x.adminState = "up" ∧ x.state = "up")) →
      assertReasons mlagPeerlinks knownHosts x =
        (if x.reason ≠ "" then x.reason else "Interface Down") ::
          restRules mlagPeerlinks knownHosts x) := by
  constructor
  · intro h
    simp only [assertReasons, opStateRule, if_pos h, List.nil_append]
  · intro h
    simp only [assertReasons, opStateRule, if_neg h, List.singleton_append]

/-- C4 witness: the admin-down row and the healthy up/up row contribute
nothing from the operational-state rule; the carrier-down row gets its own
reason field prepended. -/
theorem c4_opstate_rule_amended_witness :
    assertReasons [] [] adminDownRow = restRules [] [] adminDownRow ∧
    assertReasons [] [] baseRow = restRules [] [] baseRow ∧
    assertReasons [] [] carrierRow =
      (if carrierRow.reason ≠ "" then carrierRow.reason
        else "Interface Down") :: restRules [] [] carrierRow :=
  ⟨(c4_opstate_rule_amended [] [] adminDownRow).1 (Or.inl rfl),
   (c4_opstate_rule_amended [] [] baseRow).1 (Or.inr ⟨rfl, rfl⟩),
   (c4_opstate_rule_amended [] [] carrierRow).2 (by decide)⟩

/-- C5 counterexample: with a non-empty interface set, no usable LLDP rows
and result_filter = 'pass', the short-circuit returns the interface rows
without verdict columns, not the empty table. -/
theorem c5_short_circuit_counterexample :
    assertShortCircuitPath [sampleIfRow] [] "pass" =
      some [(sampleIfRow, none)] ∧
    some [(sampleIfRow, (none : Option (String × String)))] ≠
      some ([] : List (IfRow × Option (String × String))) := by decide

/-- C5 amended: an empty filtered interface set short-circuits to the empty
table; a non-empty set with no usable LLDP rows short-circuits to all rows
marked fail / 'No LLDP peering info' when result_filter is not 'pass', and
to the rows unannotated (no verdict columns) when result_filter is
'pass'. -/
theorem c5_short_circuit_amended (ifRows : List IfRow)
    (lldpRows : List LldpRow) (result : String) :
    (ifRows = [] → assertShortCircuitPath ifRows lldpRows result = some []) ∧
    (ifRows ≠ [] → lldpRows.filter (fun l => l.peerIfname ≠ "-") = [] →
      result ≠ "pass" →
      assertShortCircuitPath ifRows lldpRows result =
        some (ifRows.map fun r =>
          (r, some ("fail", "No LLDP peering info")))) ∧
    (ifRows ≠ [] → lldpRows.filter (fun l => l.peerIfname ≠ "-") = [] →
      result = "pass" →
      assertShortCircuitPath ifRows lldpRows result =
        some (ifRows.map fun r => (r, none))) := by
  refine ⟨?_, ?_, ?_⟩
  · intro h
    subst h
    by_cases hr : result = "pass" <;> simp [assertShortCircuitPath, hr]
  · intro h1 h2 h3
    cases ifRows with
    | nil => exact absurd rfl h1
    | cons a as =>
      simp only [assertShortCircuitPath]
      rw [h2]
      simp [h3]
  · intro h1 h2 h3
    cases ifRows with
    | nil => exact absurd rfl h1
    | cons a as =>
      simp only [assertShortCircuitPath]
      rw [h2]
      simp [h3]

/-- C5 witness: the empty interface set yields the empty table; a non-empty
set with no LLDP rows and result_filter 'all' yields the all-fail
annotation. -/
theorem c5_short_circuit_amended_witness :
    assertShortCircuitPath ([] : List IfRow) [] "all" = some [] ∧
    assertShortCircuitPath [sampleIfRow] [] "all" =
      some [(sampleIfRow, some ("fail", "No LLDP peering info"))] :=
  ⟨(c5_short_circuit_amended [] [] "all").1 rfl,
   (c5_short_circuit_amended [sampleIfRow] [] "all").2.1
     (by decide) rfl (by decide)⟩

/-- C6 counterexample: the same unmapped, address-free interface gets
portmode 'unknown' when no config-derived mapping exists at all, but
'routed' when a mapping was extracted for another interface of the same
table, so the address fallback does not apply in the latter case. -/
theorem c6_portmode_fallback_counterexample :
    bareIface.ipAddressList = [] ∧ bareIface.ip6AddressList = [] ∧
    (add_portmode [] [bareIface]).map PortmodeRow.portmode = ["unknown"] ∧
    (add_portmode [pmEntryA] [bareIface]).map PortmodeRow.portmode =
      ["routed"] := by decide

/-- C6 amended: the address-presence fallback (unknown when no IPv4
address, routed otherwise, any IPv6 address forcing routed) applies only
when no config-derived mapping was extracted at all; when some mappings
exist, an interface without a mapping of its own is filled 'routed'
regardless of its addresses (before the bridge / admin-down / vxlan
overrides). -/
theorem c6_portmode_fallback_amended (pmList : List PmEntry)
    (df : List IfaceRow) (out : PortmodeRow) :
    (pmList = [] → out ∈ add_portmode pmList df →
      out.portmode = if out.ip6AddressList.length ≠ 0 then "routed"
        else if out.ipAddressList.length = 0 then "unknown" else "routed") ∧
    (pmList ≠ [] → out ∈ add_portmode pmList df →
      (pmList.find? fun e =>
        e.ns = out.ns ∧ e.hostname = out.hostname ∧
          e.ifname = out.ifname) = none →
      out.adminState = "up" → out.ifname ≠ "bridge" → out.type ≠ "vxlan" →
      out.portmode = "routed") := by
  constructor
  · intro hp hm
    subst hp
    simp only [add_portmode, List.isEmpty_nil, if_true, List.mem_map] at hm
    obtain ⟨r, hr, hfr⟩ := hm
    subst hfr
    simp
  · intro hp hm hfind hadmin hbridge htype
    cases pmList with
    | nil => exact absurd rfl hp
    | cons e es =>
      simp only [add_portmode, List.isEmpty_cons, Bool.false_eq_true,
        if_false, List.mem_map] at hm
      obtain ⟨r, hr, hfr⟩ := hm
      subst hfr
      simp only at hfind hadmin hbridge htype
      simp only [Bool.decide_and] at hfind
      simp [hfind, hadmin, hbridge, htype]

/-- C6 witness: the no-mapping fallback marks the addressless interface
'unknown'; with a mapping present for another interface the same row is
filled 'routed'. -/
theorem c6_portmode_fallback_amended_witness :
    (bareOutUnknown.portmode =
      if bareOutUnknown.ip6AddressList.length ≠ 0 then "routed"
        else if bareOutUnknown.ipAddressList.length = 0 then "unknown"
        else "routed") ∧
    bareOutRouted.portmode = "routed" :=
  ⟨(c6_portmode_fallback_amended [] [bareIface] bareOutUnknown).1
      rfl (by decide),
   (c6_portmode_fallback_amended [pmEntryA] [bareIface] bareOutRouted).2
      (by decide) (by decide) (by decide) rfl (by decide) (by decide)⟩

/-- C7 counterexample: in the no-mapping fallback path the admin-down
interface keeps the address heuristic's portmode 'routed' instead of the
empty string, because that path returns before the admin-down override. -/
theorem c7_admin_down_portmode_counterexample :
    downIface.adminState = "down" ∧
    (add_portmode [] [downIface]).map PortmodeRow.portmode =
      ["routed"] := by decide

/-- C7 amended: every administratively-down interface gets portmode ''
when some config-derived mapping was extracted; when none was, the
address-presence fallback applies regardless of adminState. -/
theorem c7_admin_down_portmode_amended (pmList : List PmEntry)
    (df : List IfaceRow) (out : PortmodeRow) :
    pmList ≠ [] → out ∈ add_portmode pmList df → out.adminState ≠ "up" →
    out.portmode = "" := by
  intro hp hm hadmin
  cases pmList with
  | nil => exact absurd rfl hp
  | cons e es =>
    simp only [add_portmode, List.isEmpty_cons, Bool.false_eq_true,
      if_false, List.mem_map] at hm
    obtain ⟨r, hr, hfr⟩ := hm
    subst hfr
    simp only at hadmin
    simp [hadmin]

/-- C7 witness: the admin-down interface emitted by the merge path has the
empty portmode. -/
theorem c7_admin_down_portmode_amended_witness :
    downOut.portmode = "" :=
  c7_admin_down_portmode_amended [pmEntryA] [downIface] downOut
    (by decide) (by decide) (by decide)

/-- C8 counterexample: with an empty VLAN-membership table the deriver
returns the interface row with no vlanList at all (the column is absent,
modelled as none), not the empty list the claim requires for interfaces
with no membership match. -/
theorem c8_vlanlist_counterexample :
    add_vlanlist [] [trunkPm] = [(trunkPm, none)] := by decide

/-- C8 amended: provided the VLAN-membership table is non-empty, every
interface receives a present (never absent) vlanList that is strictly
ascending and duplicate-free; the value is the empty list when the
interface's portmode is access or routed, and also when no membership row
matches the interface's (namespace, hostname, ifname) key.  When the
membership table is empty the deriver returns the table unchanged and the
column stays absent. -/
theorem c8_vlanlist_amended (vlanRows : List VlanRow)
    (df : List PortmodeRow) (out : PortmodeRow × Option (List Int)) :
    vlanRows ≠ [] → out ∈ add_vlanlist vlanRows df →
    (∃ l, out.2 = some l ∧ List.Sorted (· < ·) l ∧ l.Nodup) ∧
    (out.1.portmode ∈ (["access", "routed"] : List String) →
      out.2 = some []) ∧
    ((∀ v ∈ vlanRows, ¬ (v.ns = out.1.ns ∧ v.hostname = out.1.hostname ∧
        out.1.ifname ∈ v.interfaces)) → out.2 = some []) := by
  intro hv hm
  cases vlanRows with
  | nil => exact absurd rfl hv
  | cons v vs =>
    simp only [add_vlanlist, List.isEmpty_cons, Bool.false_eq_true,
      if_false, List.mem_map] at hm
    obtain ⟨r, hr, hfr⟩ := hm
    subst hfr
    refine ⟨?_, ?_, ?_⟩
    · by_cases hpm : r.portmode ∈ (["access", "routed"] : List String)
      · exact ⟨[], by simp [hpm], List.sorted_nil, List.nodup_nil⟩
      · refine ⟨vlanIfList (v :: vs) r.ns r.hostname r.ifname,
          by simp [hpm], ?_, ?_⟩
        · exact Finset.sort_sorted_lt _
        · exact Finset.sort_nodup _ _
    · intro hpm
      simp only at hpm
      simp [hpm]
    · intro hnone
      simp only at hnone
      have hfilter : (v :: vs).filter
          (fun w => decide (w.ns = r.ns ∧ w.hostname = r.hostname ∧
            r.ifname ∈ w.interfaces)) = [] := by
        refine List.filter_eq_nil_iff.mpr ?_
        intro w hw
        simpa using hnone w hw
      simp only [Bool.decide_and] at hfilter
      by_cases hpm : r.portmode ∈ (["access", "routed"] : List String)
      · simp [hpm]
      · simp [hpm, vlanIfList, hfilter]

/-- C8 witness: the trunk port swp1, a member of VLAN 20, receives the
present, strictly ascending, duplicate-free list [20]; the access port
swp2, also a member of VLAN 20, has its list cleared to the empty list;
the trunk port swp3, a member of nothing, receives the empty list. -/
theorem c8_vlanlist_amended_witness :
    (∃ l, ((trunkPm, some [20]) : PortmodeRow × Option (List Int)).2 =
        some l ∧ List.Sorted (· < ·) l ∧ l.Nodup) ∧
    ((accessPm, some ([] : List Int)) : PortmodeRow × Option (List Int)).2 =
      some [] ∧
    ((trunkPm2, some ([] : List Int)) : PortmodeRow × Option (List Int)).2 =
      some [] :=
  ⟨(c8_vlanlist_amended [vr0] [trunkPm] (trunkPm, some [20])
      (by decide)
      (by simp [add_vlanlist, vlanIfList, vr0, trunkPm,
        Finset.sort_singleton])).1,
   (c8_vlanlist_amended [vr0] [accessPm] (accessPm, some [])
      (by decide) (by decide)).2.1 (by decide),
   (c8_vlanlist_amended [vr0] [trunkPm2] (trunkPm2, some [])
      (by decide)
      (by simp [add_vlanlist, vlanIfList, vr0, trunkPm2])).2.2 (by decide)⟩

/-- C9 counterexample: qC matches neither requested VLAN, yet the filter
keeps it, because the expansion tests namespace, hostname and ifname
membership independently and qC shares qA's namespace and hostname and
qB's ifname; the result is not limited to the matched identity set. -/
theorem c9_vlan_filter_counterexample :
    ¬ vlanMatches [10, 20] qC ∧
    vlanFilter [10, 20] [qA, qB, qC] = [qA, qB, qC] := by decide

/-- C9 amended: every row whose pvid or vlanList matches a requested VLAN
is kept, and every kept row's namespace, hostname and ifname each appear
among the matched rows' respective column values — a componentwise
envelope of the matched identity set, not that set itself. -/
theorem c9_vlan_filter_amended (vlans : List Int) (df : List QRow)
    (r : QRow) :
    (r ∈ df → vlanMatches vlans r → r ∈ vlanFilter vlans df) ∧
    (r ∈ vlanFilter vlans df → r ∈ df ∧
      r.ns ∈ (df.filter fun x => vlanMatches vlans x).map QRow.ns ∧
      r.hostname ∈
        (df.filter fun x => vlanMatches vlans x).map QRow.hostname ∧
      r.ifname ∈ (df.filter fun x => vlanMatches vlans x).map QRow.ifname) := by
  constructor
  · intro hr hm
    have hexp : r ∈ df.filter fun x => vlanMatches vlans x :=
      List.mem_filter.mpr ⟨hr, by simpa using hm⟩
    simp only [vlanFilter]
    refine List.mem_filter.mpr ⟨hr, ?_⟩
    simp only [decide_eq_true_eq]
    exact ⟨List.mem_map_of_mem _ hexp, List.mem_map_of_mem _ hexp,
      List.mem_map_of_mem _ hexp⟩
  · intro hm
    simp only [vlanFilter] at hm
    have h := List.mem_filter.mp hm
    refine ⟨h.1, ?_⟩
    have h2 := h.2
    simp only [decide_eq_true_eq] at h2
    exact h2

/-- C9 witness: the matching row qA is kept by the vlan filter. -/
theorem c9_vlan_filter_amended_witness :
    qA ∈ vlanFilter [10, 20] [qA, qB, qC] :=
  (c9_vlan_filter_amended [10, 20] [qA, qB, qC] qA).1 (by decide) (by decide)

/-- Fail-fast coercion: if any matchval entry is not int-coercible, the
whole coercion yields none. -/
theorem coerce_matchvals_eq_none {l : List MatchVal}
    (h : ∃ x ∈ l, int_of x = none) : coerce_matchvals l = none := by
  induction l with
  | nil => simp at h
  | cons a as ih =>
    obtain ⟨x, hx, hnone⟩ := h
    rcases List.mem_cons.mp hx with h1 | h2
    · subst h1
      simp [coerce_matchvals, hnone]
    · cases ha : int_of a with
      | none => simp [coerce_matchvals, ha]
      | some n => simp [coerce_matchvals, ha, ih ⟨x, h2, hnone⟩]

/-- C10: assert_mtu_value raises an input-validation error when some
matchval entry is not int-coercible; otherwise (with no result filter
selected) it returns exactly one row per selected non-loopback interface,
marked pass iff its MTU is among the coerced matchval values. -/
theorem c10_assert_mtu_value (matchval : List MatchVal) (result : String)
    (rows : List MtuRow) :
    ((∃ x ∈ matchval, int_of x = none) →
      assert_mtu_value matchval result rows =
        Except.error "matchval entries must be integers") ∧
    (∀ mv, coerce_matchvals matchval = some mv →
      result ≠ "fail" → result ≠ "pass" →
      assert_mtu_value matchval result rows =
        Except.ok ((rows.filter fun r => r.ifname ≠ "lo").map fun r =>
          (r, if r.mtu ∈ mv then "pass" else "fail")) ∧
      ∀ p ∈ ((rows.filter fun r => r.ifname ≠ "lo").map fun r =>
          (r, if r.mtu ∈ mv then "pass" else "fail")),
        p.1.ifname ≠ "lo" ∧ (p.2 = "pass" ↔ p.1.mtu ∈ mv)) := by
  constructor
  · intro h
    simp [assert_mtu_value, coerce_matchvals_eq_none h]
  · intro mv hmv h1 h2
    constructor
    · simp [assert_mtu_value, hmv, h1, h2]
    · intro p hp
      rw [List.mem_map] at hp
      obtain ⟨r, hr, hrp⟩ := hp
      have hlo := (List.mem_filter.mp hr).2
      subst hrp
      constructor
      · simpa using hlo
      · by_cases hm : r.mtu ∈ mv <;> simp [hm]

/-- C10 witness: with matchval [1500, 9000], the 1500-MTU interface
passes, the 1400-MTU interface fails, the loopback is absent from the
result; a non-coercible matchval entry aborts with the validation
error. -/
theorem c10_assert_mtu_value_witness :
    assert_mtu_value [MatchVal.num 1500, MatchVal.num 9000] ""
        [mtu1500, mtu1400, mtuLo] =
      Except.ok [(mtu1500, "pass"), (mtu1400, "fail")] ∧
    assert_mtu_value [MatchVal.bad "x"] "" [mtu1500] =
      Except.error "matchval entries must be integers" := by
  constructor
  · have h := ((c10_assert_mtu_value [MatchVal.num 1500, MatchVal.num 9000]
      "" [mtu1500, mtu1400, mtuLo]).2 [1500, 9000] rfl
      (by decide) (by decide)).1
    exact h.trans rfl
  · exact (c10_assert_mtu_value [MatchVal.bad "x"] "" [mtu1500]).1
      ⟨MatchVal.bad "x", by decide⟩
